import Mathlib

/-!
Verification of the `transcribe_scenes` batch pipeline
(`split_video.py` and `transcribe.py`).

The two Python scripts are shallowly embedded below.  Pure fragments
(extension filtering, `os.path.splitext`, `str.zfill`, CSV row
construction) become Lean functions; the sequential file-processing
loops become functions from an explicit input state (directory listing,
ledger rows, existence flags) to an `Except`-value carrying the run's
observable outcome: the to-do list, an event trace of filesystem
effects, and the rows appended to the CSV ledger.  Timestamps produced
by the external scene detector are modelled as the strings the scripts
write into the CSV (`FrameTimecode.get_seconds()` rendering in
`split_video.py`, `FrameTimecode.__str__` in `transcribe.py`); the
external collaborators (scenedetect, ffmpeg, moviepy, the speech
model) are modelled only through the calls the scripts make and the
artifacts those calls are documented to produce.
-/

namespace TranscribeScenes

/-- The extension allow-list both scripts pass to `str.endswith`
(`split_video.py` line 40, `transcribe.py` line 145). -/
def allowedExts : List String := [".mp4", ".avi", ".mov", ".mkv"]

/-- Python `s.endswith(suffix)` for a single suffix. -/
def strEndsWith (s suffix : String) : Bool :=
  suffix.data.isSuffixOf s.data

/-- Python `s.endswith(tuple_of_suffixes)`: true iff some suffix matches.
Case-sensitive, exactly as `str.endswith` is. -/
def endsWithAny (s : String) (suffixes : List String) : Bool :=
  suffixes.any (fun suf => strEndsWith s suf)

/-- Python `os.path.splitext` restricted to plain file names (no
directory separators): split at the last dot, except that a name whose
every character before the last dot is itself a dot (like `.bashrc`)
is not split. -/
def splitext (f : String) : String × String :=
  let cs := f.data
  match ((List.range cs.length).filter (fun i => cs.getD i ' ' = '.')).getLast? with
  | none => (f, "")
  | some idx =>
    if (List.range idx).any (fun j => cs.getD j ' ' ≠ '.') then
      (⟨cs.take idx⟩, ⟨cs.drop idx⟩)
    else
      (f, "")

/-- Python `os.path.join` on POSIX for relative components. -/
def pathJoin (a b : String) : String := a ++ "/" ++ b

/-- Python `str.zfill(width)`: left-pad with `'0'` to `width`
characters, keeping a leading sign character in front of the pad. -/
def zfill (s : String) (width : Nat) : String :=
  if width ≤ s.data.length then s
  else
    let pad := List.replicate (width - s.data.length) '0'
    match s.data with
    | c :: rest => if c = '+' ∨ c = '-' then ⟨c :: (pad ++ rest)⟩ else ⟨pad ++ (c :: rest)⟩
    | [] => ⟨pad⟩

/-- The exceptions the scripts can raise in the fragments we model. -/
inductive PyErr where
  /-- raised by `next(reader)` on an exhausted csv reader (`split_video.py` line 29). -/
  | stopIteration : PyErr
  /-- raised by `row[0]` on an empty row. -/
  | indexError : PyErr
  /-- raised by `open(file, "r")` on a missing file (`transcribe.py` line 37). -/
  | fileNotFound : PyErr
  /-- calling a function without one of its required positional arguments;
  the payload names the missing parameter. -/
  | typeError : String → PyErr
deriving DecidableEq, Repr

/-- Python `row[0]`: the first cell of a CSV row, an `IndexError` on an empty row. -/
def row0 (r : List String) : Except PyErr String :=
  match r with
  | [] => .error .indexError
  | x :: _ => .ok x

/-!  Section: the scanners.  -/

/-- The to-do list of `split_video.py` (lines 36-41): the loop body is
skipped unless the file name ends with an allowed extension and its
bare name (`os.path.splitext(video_file)[0]`) is not in the processed
set read from the ledger. -/
def svTodo (listing : List String) (processed : List String) : List String :=
  listing.filter (fun f =>
    endsWithAny f allowedExts && !(processed.contains (splitext f).1))

/-- The to-do list of `transcribe.py.__main__` (lines 143-149): a file
is appended to `todo` unless it lacks an allowed extension or the FULL
file name (extension included) occurs in the list `done` returned by
`init_folder`. -/
def trTodo (listing : List String) (done : List String) : List String :=
  listing.filter (fun f =>
    endsWithAny f allowedExts && !(done.contains f))

/-!  Section: event traces.

Observable filesystem effects of the per-video processing, in program
order.  The bulk library calls `save_images` and `split_video_ffmpeg`
write one image / one clip per scene; we record one event per scene,
tagged with the 1-based scene number that the `$SCENE_NUMBER` template
placeholder and the scripts' own `i + 1` numbering denote.  Events of
`split_video.py` carry the bare video name (its ledger key); events of
`transcribe.py` carry the full file name (its ledger key). -/
inductive Ev where
  /-- lines 58-61 of `transcribe.py`: remove a pre-existing per-video
  directory and create it afresh with its subdirectories. -/
  | setupDirs : String → Ev
  /-- one thumbnail written by `save_images` for the given scene. -/
  | writeImage : String → Nat → Ev
  /-- one re-encoded clip written by `split_video_ffmpeg` for the given scene. -/
  | writeClip : String → Nat → Ev
  /-- one audio file written by `video_to_audio` for a scene's audio (`transcribe.py` line 87). -/
  | writeAudio : String → Nat → Ev
  /-- the speech-recognition call on a scene's audio (`transcribe.py` line 117). -/
  | transcribeScene : String → Nat → Ev
  /-- one call of `csv_writer.writerow(row)` appending one row to the ledger. -/
  | appendRow : List String → Ev
deriving DecidableEq, Repr

/-- Is the event an append of a ledger row? -/
def isRowEv : Ev → Bool
  | .appendRow _ => true
  | _ => false

/-- Is the event part of producing a video's scene artifacts
(thumbnail, clip, audio) or transcribing a scene? -/
def isSceneWorkEv : Ev → Bool
  | .writeImage _ _ => true
  | .writeClip _ _ => true
  | .writeAudio _ _ => true
  | .transcribeScene _ _ => true
  | _ => false

/-- The ledger key of the video an event concerns: the tag carried by
artifact events, and the first CSV cell of an appended row. -/
def evVideoTag : Ev → Option String
  | .setupDirs v => some v
  | .writeImage v _ => some v
  | .writeClip v _ => some v
  | .writeAudio v _ => some v
  | .transcribeScene v _ => some v
  | .appendRow r => r.head?

/-!  Section: split_video.py.  -/

/-- The header row `split_video.py` writes when creating the ledger
(line 23). -/
def svHeader : List String :=
  ["video_name", "scene_number", "start_time", "end_time"]

/-- Lines 26-30: skip the header with `next(reader)` (a
`StopIteration` on an empty file) and collect `row[0]` of every
remaining row (an `IndexError` on an empty row). -/
def readProcessed (rows : List (List String)) : Except PyErr (List String) :=
  match rows with
  | [] => .error .stopIteration
  | _ :: rest => rest.mapM row0

/-- The CSV rows appended for one video (lines 72-75):
`[video_name, idx + 1, start_time.get_seconds(), end_time.get_seconds()]`
for each scene, in detector order.  Scene timestamps are carried as the
strings the `csv` module renders. -/
def svVideoRows (name : String) (scenes : List (String × String)) : List (List String) :=
  scenes.enum.map (fun p => [name, Nat.repr (p.1 + 1), p.2.1, p.2.2])

/-- The artifact-producing events for one video in `split_video.py`:
`save_images` (line 54) writes every scene's thumbnail, then
`split_video_ffmpeg` (line 63) writes every scene's clip. -/
def svSceneWork (name : String) (n : Nat) : List Ev :=
  (List.range n).map (fun i => Ev.writeImage name (i + 1)) ++
    (List.range n).map (fun i => Ev.writeClip name (i + 1))

/-- The full event trace of `split_video.py` for one video: all
artifacts, then the CSV append of lines 72-75. -/
def svVideoTrace (name : String) (scenes : List (String × String)) : List Ev :=
  svSceneWork name scenes.length ++ (svVideoRows name scenes).map Ev.appendRow

/-- The input state of a `split_video_scenes` call: whether the ledger
file exists, its rows if so, and the input directory listing. -/
structure SvInput where
  csvExists : Bool
  csvRows : List (List String)
  listing : List String
deriving DecidableEq, Repr

/-- The observable outcome of a successful `split_video_scenes` call. -/
structure SvRunOut where
  /-- the ledger rows on disk after the ensure-header step (lines 20-23). -/
  stored : List (List String)
  /-- the processed-video names read from the ledger (lines 26-30). -/
  processed : List String
  /-- the files the loop actually processes (lines 36-41). -/
  todo : List String
  /-- the filesystem events of the whole run, in program order. -/
  trace : List Ev
  /-- the rows appended to the ledger by the run. -/
  appended : List (List String)
deriving DecidableEq, Repr

/-- The ledger rows after the run: the file is opened in append mode
(line 72), so the stored rows stay and the new rows follow. -/
def SvRunOut.finalRows (r : SvRunOut) : List (List String) :=
  r.stored ++ r.appended

/-- The function `split_video_scenes(input_folder, output_folder, csv_file)` of
`split_video.py` (lines 11-77), as a function of the input state and of
the external detector (`detect path` is the scene list the scenedetect
collaborator returns for the video at `path`, each scene a pair of
timestamp strings). -/
def split_video_scenes (detect : String → List (String × String))
    (input_folder output_folder csv_file : String) (inp : SvInput) :
    Except PyErr SvRunOut :=
  let stored := if inp.csvExists then inp.csvRows else [svHeader]
  match readProcessed stored with
  | .error e => .error e
  | .ok processed =>
    let todo := svTodo inp.listing processed
    .ok
      { stored := stored
        processed := processed
        todo := todo
        trace := todo.flatMap (fun f =>
          svVideoTrace (splitext f).1 (detect (pathJoin input_folder f)))
        appended := todo.flatMap (fun f =>
          svVideoRows (splitext f).1 (detect (pathJoin input_folder f))) }

/-- Python call semantics for keyword arguments: look each required
parameter up among the supplied bindings; a missing one is a
`TypeError` naming the parameter. -/
def bindArg (args : List (String × String)) (name : String) : Except PyErr String :=
  match args.lookup name with
  | some v => .ok v
  | none => .error (.typeError name)

/-- A call of `split_video_scenes` with keyword arguments `args`: all
three required parameters must be bound before the body runs. -/
def callSplitVideoScenes (detect : String → List (String × String))
    (args : List (String × String)) (inp : SvInput) : Except PyErr SvRunOut :=
  match bindArg args "input_folder", bindArg args "output_folder",
      bindArg args "csv_file" with
  | .ok iF, .ok oF, .ok cF => split_video_scenes detect iF oF cF inp
  | .error e, _, _ => .error e
  | _, .error e, _ => .error e
  | _, _, .error e => .error e

/-- The module-level call of `split_video.py` line 80:
`split_video_scenes(input_folder="vids", output_folder="vids-split")` —
no `csv_file` argument is supplied. -/
def split_video_script (detect : String → List (String × String))
    (inp : SvInput) : Except PyErr SvRunOut :=
  callSplitVideoScenes detect
    [("input_folder", "vids"), ("output_folder", "vids-split")] inp

/-!  Section: transcribe.py.  -/

/-- The header row `init_folder` writes when creating the ledger
(`transcribe.py` line 34). -/
def trHeader : List String :=
  ["video", "screen_nr", "scene", "image", "start_time", "end_time", "transcription"]

/-- The sentinel text stored when the recognition result has no
`"text"` key (`transcribe.py` line 118). -/
def noTranscription : String := "NO TRANSCRIPTION FOUND"

/-- The state of the output folder as far as `init_folder` observes
and changes it: its own existence, and the existence and rows of
`scenes.csv` inside it.  (The `videos` subdirectory that the
fresh-folder branch also creates carries no data the claims touch.) -/
structure TrFolder where
  folderExists : Bool
  csvExists : Bool
  csvRows : List (List String)
deriving DecidableEq, Repr

/-- The function `init_folder(output_folder)` of `transcribe.py` (lines 26-40).  If
the output folder does not exist it is created together with the
ledger and its header row, returning `[]`; otherwise `scenes.csv` is
opened for reading — a `FileNotFoundError` when absent — and `row[0]`
of EVERY row, the header included, is collected. -/
def init_folder (st : TrFolder) : Except PyErr (TrFolder × List String) :=
  if st.folderExists then
    if st.csvExists then
      match st.csvRows.mapM row0 with
      | .ok files => .ok (st, files)
      | .error e => .error e
    else .error .fileNotFound
  else
    .ok ({ folderExists := true, csvExists := true, csvRows := [trHeader] }, [])

/-- Python `str(i + 1).zfill(3)`: the scene label of `transcribe.py` line 79. -/
def sceneNr (i : Nat) : String := zfill (Nat.repr (i + 1)) 3

/-- The per-video output directory `output/videos/<bare name>`
(`transcribe.py` lines 53-54). -/
def trVideoDir (output_folder file : String) : String :=
  pathJoin (pathJoin output_folder "videos") (splitext file).1

/-- The clip path of scene `i` (0-based): `<video dir>/scenes/<NNN><ext>`. -/
def trScenePath (output_folder file : String) (i : Nat) : String :=
  pathJoin (pathJoin (trVideoDir output_folder file) "scenes")
    (sceneNr i ++ (splitext file).2)

/-- The thumbnail path of scene `i`: `<video dir>/images/<NNN>.jpg`. -/
def trImagePath (output_folder file : String) (i : Nat) : String :=
  pathJoin (pathJoin (trVideoDir output_folder file) "images") (sceneNr i ++ ".jpg")

/-- The audio path of scene `i`: `<video dir>/audio/<NNN>.mp3`. -/
def trAudioPath (output_folder file : String) (i : Nat) : String :=
  pathJoin (pathJoin (trVideoDir output_folder file) "audio") (sceneNr i ++ ".mp3")

/-- The ledger rows `main` buffers for one video (`transcribe.py`
lines 78-98 and 116-129): one row per scene of the detector's list, in
order, whose transcription cell is `res.get("text", "NO TRANSCRIPTION
FOUND")` — `tr path` models the presence and value of the `"text"` key
of the recognition result for the audio file at `path`. -/
def trVideoRows (tr : String → Option String)
    (detect : String → List (String × String))
    (input_folder output_folder file : String) : List (List String) :=
  (detect (pathJoin input_folder file)).enum.map (fun p =>
    [file, sceneNr p.1, trScenePath output_folder file p.1,
      trImagePath output_folder file p.1, p.2.1, p.2.2,
      (tr (trAudioPath output_folder file p.1)).getD noTranscription])

/-- The artifact events of one `transcribe.py` video, in program
order: the directory refresh of lines 58-61, the bulk image and clip
writes of lines 63-76, then per scene the audio extraction and the
transcription call (lines 87 and 117, interleaved per iteration of the
generator/consumer pair). -/
def trSceneWork (file : String) (n : Nat) : List Ev :=
  Ev.setupDirs file ::
    ((List.range n).map (fun i => Ev.writeImage file (i + 1)) ++
      (List.range n).map (fun i => Ev.writeClip file (i + 1)) ++
      (List.range n).flatMap (fun i =>
        [Ev.writeAudio file (i + 1), Ev.transcribeScene file (i + 1)]))

/-- The full event trace of one `transcribe.py` video: all scene work,
then the buffered rows written to the CSV (lines 131-132). -/
def trVideoTrace (tr : String → Option String)
    (detect : String → List (String × String))
    (input_folder output_folder file : String) : List Ev :=
  trSceneWork file (detect (pathJoin input_folder file)).length ++
    (trVideoRows tr detect input_folder output_folder file).map Ev.appendRow

/-- The input state of a `transcribe.py` run: the output folder state
and the input directory listing. -/
structure TrInput where
  folderExists : Bool
  csvExists : Bool
  csvRows : List (List String)
  listing : List String
deriving DecidableEq, Repr

/-- The observable outcome of a successful `transcribe.py` run. -/
structure TrRunOut where
  /-- the list `init_folder` returns (header cell included). -/
  done : List String
  /-- the ledger rows on disk after `init_folder`. -/
  initialRows : List (List String)
  /-- the to-do list built in `__main__` (lines 143-149). -/
  todo : List String
  /-- the filesystem events of `main`, in program order. -/
  trace : List Ev
  /-- the rows appended to the ledger by the run. -/
  appended : List (List String)
deriving DecidableEq, Repr

/-- The ledger rows after the run: `scenes.csv` is opened in append
mode (`transcribe.py` line 107). -/
def TrRunOut.finalRows (r : TrRunOut) : List (List String) :=
  r.initialRows ++ r.appended

/-- The `__main__` block of `transcribe.py` (lines 135-151) followed by
`main` (lines 101-132), as a function of the input state, the external
detector, and the recognition results. -/
def transcribe_script (tr : String → Option String)
    (detect : String → List (String × String))
    (input_folder output_folder : String) (inp : TrInput) :
    Except PyErr TrRunOut :=
  match init_folder ⟨inp.folderExists, inp.csvExists, inp.csvRows⟩ with
  | .error e => .error e
  | .ok (st, done) =>
    let todo := trTodo inp.listing done
    .ok
      { done := done
        initialRows := st.csvRows
        todo := todo
        trace := todo.flatMap (fun f =>
          trVideoTrace tr detect input_folder output_folder f)
        appended := todo.flatMap (fun f =>
          trVideoRows tr detect input_folder output_folder f) }

/-!  Section: filesystem model for the directory refresh of `scene_generator`.

A path is its list of components relative to the working directory; a
filesystem is the list of paths that exist (files and directories
alike).  `shutil.rmtree(d)` removes `d` and everything below it;
`os.makedirs(p)` creates `p` and any missing ancestors. -/

/-- A filesystem path, as components. -/
abbrev FsPath := List String

/-- Python `shutil.rmtree d`: drop every path having `d` as a prefix. -/
def rmtree (d : FsPath) (fs : List FsPath) : List FsPath :=
  fs.filter (fun p => !(d.isPrefixOf p))

/-- The nonempty prefixes of a path — what `os.makedirs` ensures exist. -/
def pathAncestors : FsPath → List FsPath
  | [] => []
  | c :: rest => [c] :: (pathAncestors rest).map (fun q => c :: q)

/-- Python `os.makedirs p`: add `p` and its missing ancestors.  (The
`FileExistsError` that `os.makedirs` raises when its leaf already
exists cannot fire in the modelled call sequence, where each created
leaf was just removed or never existed, so it is not modelled.) -/
def makedirs (p : FsPath) (fs : List FsPath) : List FsPath :=
  pathAncestors p ++ fs

/-- Lines 52-61 of `transcribe.py`: compute the per-video directory,
delete it if it exists, then create it and its `scenes`, `images` and
`audio` subdirectories. -/
def sceneGenSetup (output_folder file_name : String) (fs : List FsPath) : List FsPath :=
  let video_dir : FsPath := [output_folder, "videos", file_name]
  let fs1 := if fs.contains video_dir then rmtree video_dir fs else fs
  [video_dir, video_dir ++ ["scenes"], video_dir ++ ["images"],
      video_dir ++ ["audio"]].foldl (fun acc d => makedirs d acc) fs1

/-- Python `str.lower` restricted to the ASCII file names at hand. -/
def strToLower (s : String) : String := ⟨s.data.map Char.toLower⟩

/-- The scene number of a thumbnail-write event. -/
def evImageNum : Ev → Option Nat
  | .writeImage _ k => some k
  | _ => none

/-- The scene number of a clip-write event. -/
def evClipNum : Ev → Option Nat
  | .writeClip _ k => some k
  | _ => none

/-- The scene number of an audio-extraction event. -/
def evAudioNum : Ev → Option Nat
  | .writeAudio _ k => some k
  | _ => none

/-!  Section: concrete fixtures used by witnesses.  -/

/-- A detector under which every video has one scene spanning (0, 1). -/
def detect1 : String → List (String × String) := fun _ => [("0", "1")]

/-- A `split_video.py` input whose ledger already records video `a`
and whose input folder holds `a.mp4` and `b.mp4`. -/
def svFixtureInp : SvInput :=
  ⟨true, [svHeader, ["a", "1", "0", "1"]], ["a.mp4", "b.mp4"]⟩

/-- The outcome of running `split_video_scenes` under `detect1` on
`svFixtureInp`: only `b.mp4` is processed. -/
def svFixtureOut : SvRunOut :=
  ⟨[svHeader, ["a", "1", "0", "1"]], ["a"], ["b.mp4"],
    [.writeImage "b" 1, .writeClip "b" 1, .appendRow ["b", "1", "0", "1"]],
    [["b", "1", "0", "1"]]⟩

/-- A `transcribe.py` input whose ledger already records `a.mp4` and
whose input folder holds `a.mp4` and `b.mp4`. -/
def trFixtureInp : TrInput :=
  ⟨true, true, [trHeader, ["a.mp4", "001", "sp", "ip", "0", "1", "t"]],
    ["a.mp4", "b.mp4"]⟩

/-- The outcome of running `transcribe.py` under `detect1` and a
recognizer returning no `"text"` key, on `trFixtureInp` with input
folder `vids` and output folder `out`: only `b.mp4` is processed. -/
def trFixtureOut : TrRunOut :=
  ⟨["video", "a.mp4"], [trHeader, ["a.mp4", "001", "sp", "ip", "0", "1", "t"]],
    ["b.mp4"],
    [.setupDirs "b.mp4", .writeImage "b.mp4" 1, .writeClip "b.mp4" 1,
      .writeAudio "b.mp4" 1, .transcribeScene "b.mp4" 1,
      .appendRow ["b.mp4", "001", "out/videos/b/scenes/001.mp4",
        "out/videos/b/images/001.jpg", "0", "1", "NO TRANSCRIPTION FOUND"]],
    [["b.mp4", "001", "out/videos/b/scenes/001.mp4",
      "out/videos/b/images/001.jpg", "0", "1", "NO TRANSCRIPTION FOUND"]]⟩

end TranscribeScenes

namespace TranscribeScenes

theorem contains_iff {α : Type} [BEq α] [LawfulBEq α] {l : List α} {a : α} :
    l.contains a = true ↔ a ∈ l := by
  induction l with
  | nil => simp [List.contains]
  | cons x xs ih =>
    simp only [List.contains_cons, Bool.or_eq_true, List.mem_cons, beq_iff_eq] at *
    constructor
    · rintro (h | h)
      · exact Or.inl h
      · exact Or.inr (ih.mp h)
    · rintro (h | h)
      · exact Or.inl h
      · exact Or.inr (ih.mpr h)

theorem contains_eq_false_iff {α : Type} [BEq α] [LawfulBEq α] {l : List α} {a : α} :
    l.contains a = false ↔ a ∉ l := by
  constructor
  · intro h hm
    rw [contains_iff.mpr hm] at h
    cases h
  · intro h
    cases hc : l.contains a with
    | false => rfl
    | true => exact absurd (contains_iff.mp hc) h

theorem mem_svTodo {listing processed : List String} {f : String} :
    f ∈ svTodo listing processed ↔
      f ∈ listing ∧ endsWithAny f allowedExts = true ∧ (splitext f).1 ∉ processed := by
  simp [svTodo, List.mem_filter, Bool.and_eq_true, Bool.not_eq_true',
    contains_eq_false_iff, and_assoc]

theorem mem_trTodo {listing done : List String} {f : String} :
    f ∈ trTodo listing done ↔
      f ∈ listing ∧ endsWithAny f allowedExts = true ∧ f ∉ done := by
  simp [trTodo, List.mem_filter, Bool.and_eq_true, Bool.not_eq_true',
    contains_eq_false_iff, and_assoc]

/-- In a concatenation whose left part has no `q`-events and whose
right part has no `p`-events, every `p`-index precedes every `q`-index. -/
theorem index_lt_of_append {α : Type} {A R : List α} {p q : α → Bool}
    (hA : ∀ e ∈ A, q e = false) (hR : ∀ e ∈ R, p e = false)
    {i j : Nat} (hi : i < (A ++ R).length) (hj : j < (A ++ R).length)
    (hp : p ((A ++ R)[i]) = true) (hq : q ((A ++ R)[j]) = true) :
    i < j := by
  have hiA : i < A.length := by
    by_contra hge
    push_neg at hge
    rw [List.getElem_append_right hge] at hp
    rw [hR _ (List.getElem_mem _)] at hp
    cases hp
  have hjA : A.length ≤ j := by
    by_contra hlt
    push_neg at hlt
    rw [List.getElem_append_left hlt] at hq
    rw [hA _ (List.getElem_mem _)] at hq
    cases hq
  omega

theorem not_isRowEv_of_mem_svSceneWork {name : String} {n : Nat} {e : Ev}
    (h : e ∈ svSceneWork name n) : isRowEv e = false := by
  rcases List.mem_append.mp h with h | h <;>
    · rcases List.mem_map.mp h with ⟨i, _, rfl⟩
      rfl

theorem not_isSceneWorkEv_of_mem_rows {rows : List (List String)} {e : Ev}
    (h : e ∈ rows.map Ev.appendRow) : isSceneWorkEv e = false := by
  rcases List.mem_map.mp h with ⟨r, _, rfl⟩
  rfl

theorem not_isRowEv_of_mem_trSceneWork {file : String} {n : Nat} {e : Ev}
    (h : e ∈ trSceneWork file n) : isRowEv e = false := by
  rcases List.mem_cons.mp h with rfl | h
  · rfl
  · rcases List.mem_append.mp h with h | h
    · rcases List.mem_append.mp h with h | h <;>
        · rcases List.mem_map.mp h with ⟨i, _, rfl⟩
          rfl
    · rcases List.mem_flatMap.mp h with ⟨i, _, hm⟩
      rcases List.mem_cons.mp hm with rfl | hm
      · rfl
      · rcases List.mem_cons.mp hm with rfl | hm
        · rfl
        · cases hm

theorem head?_mem_svVideoRows {name : String} {scenes : List (String × String)}
    {row : List String} (h : row ∈ svVideoRows name scenes) :
    row.head? = some name := by
  rcases List.mem_map.mp h with ⟨p, _, rfl⟩
  rfl

theorem head?_mem_trVideoRows {tr : String → Option String}
    {detect : String → List (String × String)} {iF oF file : String}
    {row : List String} (h : row ∈ trVideoRows tr detect iF oF file) :
    row.head? = some file := by
  rcases List.mem_map.mp h with ⟨p, _, rfl⟩
  rfl

theorem evVideoTag_mem_svVideoTrace {name : String} {scenes : List (String × String)}
    {e : Ev} (h : e ∈ svVideoTrace name scenes) : evVideoTag e = some name := by
  rcases List.mem_append.mp h with h | h
  · rcases List.mem_append.mp h with h | h <;>
      · rcases List.mem_map.mp h with ⟨i, _, rfl⟩
        rfl
  · rcases List.mem_map.mp h with ⟨r, hr, rfl⟩
    simpa [evVideoTag] using head?_mem_svVideoRows hr

theorem evVideoTag_mem_trVideoTrace {tr : String → Option String}
    {detect : String → List (String × String)} {iF oF file : String}
    {e : Ev} (h : e ∈ trVideoTrace tr detect iF oF file) :
    evVideoTag e = some file := by
  rcases List.mem_append.mp h with h | h
  · rcases List.mem_cons.mp h with rfl | h
    · rfl
    · rcases List.mem_append.mp h with h | h
      · rcases List.mem_append.mp h with h | h <;>
          · rcases List.mem_map.mp h with ⟨i, _, rfl⟩
            rfl
      · rcases List.mem_flatMap.mp h with ⟨i, _, hm⟩
        rcases List.mem_cons.mp hm with rfl | hm
        · rfl
        · rcases List.mem_cons.mp hm with rfl | hm
          · rfl
          · cases hm
  · rcases List.mem_map.mp h with ⟨r, hr, rfl⟩
    simpa [evVideoTag] using head?_mem_trVideoRows hr

/-- C1 fails on `transcribe.py`: with a ledger whose single body row
records `a.mp4` (so the bare name `a` appears nowhere in the ledger's
video column), the file `a.mp4` satisfies both conditions of the claim
— allowed extension, bare name absent from the processed set — yet the
scanner's to-do list built from `init_folder`'s result is empty,
because `__main__` line 147 compares the FULL file name against the
column values. -/
theorem C1_cex :
    endsWithAny "a.mp4" allowedExts = true ∧
    init_folder ⟨true, true, [trHeader, ["a.mp4", "001", "sp", "ip", "0", "1", "txt"]]⟩ =
      .ok (⟨true, true, [trHeader, ["a.mp4", "001", "sp", "ip", "0", "1", "txt"]]⟩,
        ["video", "a.mp4"]) ∧
    (splitext "a.mp4").1 ∉ (["video", "a.mp4"] : List String) ∧
    trTodo ["a.mp4"] ["video", "a.mp4"] = [] := by
  refine ⟨by decide, by rfl, by decide, by decide⟩

/-- C1 (amended): each scanner's to-do list contains exactly the
listed filenames with an extension in the allow-list whose LEDGER KEY
is not already in the set the script reads from the ledger — the bare
name against the `video_name` column values for `split_video.py`, and
the full filename against `init_folder`'s list (the `video` column
values, header cell included) for `transcribe.py` — and under a
duplicate-free directory listing each such file appears exactly once. -/
theorem C1_scanner_exact (listing processed done : List String) (f : String) :
    (f ∈ svTodo listing processed ↔
      f ∈ listing ∧ endsWithAny f allowedExts = true ∧ (splitext f).1 ∉ processed) ∧
    (f ∈ trTodo listing done ↔
      f ∈ listing ∧ endsWithAny f allowedExts = true ∧ f ∉ done) ∧
    (listing.Nodup → f ∈ svTodo listing processed →
      (svTodo listing processed).count f = 1) ∧
    (listing.Nodup → f ∈ trTodo listing done →
      (trTodo listing done).count f = 1) := by
  refine ⟨?_, ?_, ?_, ?_⟩
  · simp [svTodo, List.mem_filter, Bool.and_eq_true, Bool.not_eq_true',
      contains_eq_false_iff, and_assoc]
  · simp [trTodo, List.mem_filter, Bool.and_eq_true, Bool.not_eq_true',
      contains_eq_false_iff, and_assoc]
  · intro hnd hm
    exact List.count_eq_one_of_mem (List.Nodup.filter _ hnd) hm
  · intro hnd hm
    exact List.count_eq_one_of_mem (List.Nodup.filter _ hnd) hm

/-- Witness for `C1_scanner_exact` at concrete inputs. -/
theorem C1_scanner_exact_witness :
    ("a.mp4" ∈ svTodo ["a.mp4", "notes.txt"] ["b"]) ∧
    ((svTodo ["a.mp4", "notes.txt"] ["b"]).count "a.mp4" = 1) ∧
    ("b.mkv" ∈ trTodo ["b.mkv", "x.txt"] ["video"]) ∧
    ((trTodo ["b.mkv", "x.txt"] ["video"]).count "b.mkv" = 1) :=
  ⟨(C1_scanner_exact ["a.mp4", "notes.txt"] ["b"] [] "a.mp4").1.mpr (by decide),
   (C1_scanner_exact ["a.mp4", "notes.txt"] ["b"] [] "a.mp4").2.2.1
     (by decide) ((C1_scanner_exact ["a.mp4", "notes.txt"] ["b"] [] "a.mp4").1.mpr (by decide)),
   (C1_scanner_exact ["b.mkv", "x.txt"] [] ["video"] "b.mkv").2.1.mpr (by decide),
   (C1_scanner_exact ["b.mkv", "x.txt"] [] ["video"] "b.mkv").2.2.2
     (by decide) ((C1_scanner_exact ["b.mkv", "x.txt"] [] ["video"] "b.mkv").2.1.mpr (by decide))⟩

example : svTodo ["a.mp4", "notes.txt", "b.mkv"] ["b"] = ["a.mp4"] := by decide

example : trTodo ["a.mp4", "notes.txt"] ["video", "a.mp4"] = [] := by decide

example : splitext "a.mp4" = ("a", ".mp4") := by decide

example : splitext "archive.tar.gz" = ("archive.tar", ".gz") := by decide

example : splitext ".hidden" = (".hidden", "") := by decide

example : zfill "7" 3 = "007" := by decide

example : zfill "-7" 3 = "-07" := by decide

example : zfill "1234" 3 = "1234" := by decide

/-- C2: in both scripts, no ledger row of a video is written before
all of that video's scene artifacts have been produced.  In the
per-video event trace of `split_video.py` (images and clips written,
then rows appended, lines 54-75) and of `transcribe.py` (scenes
extracted and transcribed, then the buffered rows flushed, lines
109-132), every artifact or transcription event strictly precedes
every ledger-row append. -/
theorem C2_rows_after_artifacts :
    (∀ (name : String) (scenes : List (String × String)) (i j : Nat)
      (hi : i < (svVideoTrace name scenes).length)
      (hj : j < (svVideoTrace name scenes).length),
      isSceneWorkEv ((svVideoTrace name scenes)[i]) = true →
      isRowEv ((svVideoTrace name scenes)[j]) = true → i < j) ∧
    (∀ (tr : String → Option String) (detect : String → List (String × String))
      (iF oF file : String) (i j : Nat)
      (hi : i < (trVideoTrace tr detect iF oF file).length)
      (hj : j < (trVideoTrace tr detect iF oF file).length),
      isSceneWorkEv ((trVideoTrace tr detect iF oF file)[i]) = true →
      isRowEv ((trVideoTrace tr detect iF oF file)[j]) = true → i < j) := by
  constructor
  · intro name scenes i j hi hj hp hq
    exact index_lt_of_append
      (fun e he => not_isRowEv_of_mem_svSceneWork he)
      (fun e he => not_isSceneWorkEv_of_mem_rows he)
      (by simpa [svVideoTrace] using hi) (by simpa [svVideoTrace] using hj) hp hq
  · intro tr detect iF oF file i j hi hj hp hq
    exact index_lt_of_append
      (fun e he => not_isRowEv_of_mem_trSceneWork he)
      (fun e he => not_isSceneWorkEv_of_mem_rows he)
      (by simpa [trVideoTrace] using hi) (by simpa [trVideoTrace] using hj) hp hq

/-- Witness for `C2_rows_after_artifacts`: a one-scene video in each
script — the thumbnail write (index 0 resp. 1) precedes the row append
(index 2 resp. 5). -/
theorem C2_rows_after_artifacts_witness : (0 : Nat) < 2 ∧ (1 : Nat) < 5 :=
  ⟨C2_rows_after_artifacts.1 "a" [("0", "1")] 0 2
      (by decide) (by decide) (by decide) (by decide),
   C2_rows_after_artifacts.2 (fun _ => none) (fun _ => [("0", "1")]) "vids" "out" "a.mp4" 1 5
      (by decide) (by decide) (by decide) (by decide)⟩

/-- C3: a video already recorded in the ledger is a no-op for either
script.  If a run succeeds and `v` is among the names the script read
from the ledger (`r.processed` for `split_video.py`, `r.done` for
`transcribe.py`), then no to-do entry has `v` as its ledger key, no
appended row starts with `v`, no trace event concerns `v`, and the
final ledger is the stored rows followed by the appended rows — the
pre-existing rows are untouched. -/
theorem C3_second_run_noop :
    (∀ (detect : String → List (String × String)) (iF oF cF : String)
      (inp : SvInput) (r : SvRunOut) (v : String),
      split_video_scenes detect iF oF cF inp = .ok r →
      v ∈ r.processed →
      (∀ f ∈ r.todo, (splitext f).1 ≠ v) ∧
      (∀ row ∈ r.appended, row.head? ≠ some v) ∧
      (∀ e ∈ r.trace, evVideoTag e ≠ some v) ∧
      r.finalRows = r.stored ++ r.appended ∧
      (inp.csvExists = true → r.stored = inp.csvRows)) ∧
    (∀ (tr : String → Option String) (detect : String → List (String × String))
      (iF oF : String) (inp : TrInput) (r : TrRunOut) (v : String),
      transcribe_script tr detect iF oF inp = .ok r →
      v ∈ r.done →
      (∀ f ∈ r.todo, f ≠ v) ∧
      (∀ row ∈ r.appended, row.head? ≠ some v) ∧
      (∀ e ∈ r.trace, evVideoTag e ≠ some v) ∧
      r.finalRows = r.initialRows ++ r.appended ∧
      (inp.folderExists = true → inp.csvExists = true →
        r.initialRows = inp.csvRows)) := by
  constructor
  · intro detect iF oF cF inp r v hrun hv
    rw [split_video_scenes] at hrun
    rcases hread : readProcessed (if inp.csvExists then inp.csvRows else [svHeader]) with
      e | processed
    · rw [hread] at hrun
      cases hrun
    · rw [hread] at hrun
      injection hrun with hrun
      subst hrun
      simp only at hv ⊢
      refine ⟨?_, ?_, ?_, rfl, ?_⟩
      · intro f hf
        exact fun heq => (mem_svTodo.mp hf).2.2 (heq ▸ hv)
      · intro row hrow
        rcases List.mem_flatMap.mp hrow with ⟨f, hf, hr⟩
        rw [head?_mem_svVideoRows hr]
        intro heq
        injection heq with heq
        exact (mem_svTodo.mp hf).2.2 (heq ▸ hv)
      · intro e he
        rcases List.mem_flatMap.mp he with ⟨f, hf, hr⟩
        rw [evVideoTag_mem_svVideoTrace hr]
        intro heq
        injection heq with heq
        exact (mem_svTodo.mp hf).2.2 (heq ▸ hv)
      · intro hcsv
        simp [hcsv]
  · intro tr detect iF oF inp r v hrun hv
    rw [transcribe_script] at hrun
    rcases hinit : init_folder ⟨inp.folderExists, inp.csvExists, inp.csvRows⟩ with
      e | stdone
    · rw [hinit] at hrun
      cases hrun
    · rw [hinit] at hrun
      injection hrun with hrun
      subst hrun
      simp only at hv ⊢
      refine ⟨?_, ?_, ?_, rfl, ?_⟩
      · intro f hf
        exact fun heq => (mem_trTodo.mp hf).2.2 (heq ▸ hv)
      · intro row hrow
        rcases List.mem_flatMap.mp hrow with ⟨f, hf, hr⟩
        rw [head?_mem_trVideoRows hr]
        intro heq
        injection heq with heq
        exact (mem_trTodo.mp hf).2.2 (heq ▸ hv)
      · intro e he
        rcases List.mem_flatMap.mp he with ⟨f, hf, hr⟩
        rw [evVideoTag_mem_trVideoTrace hr]
        intro heq
        injection heq with heq
        exact (mem_trTodo.mp hf).2.2 (heq ▸ hv)
      · intro hfold hcsv
        rw [init_folder] at hinit
        simp only [hfold, hcsv, if_true] at hinit
        rcases hm : (inp.csvRows.mapM row0) with e | files
        · rw [hm] at hinit
          cases hinit
        · rw [hm] at hinit
          injection hinit with hinit
          rw [← hinit]

/-- Witness for `C3_second_run_noop` on the concrete fixtures: video
`a` / `a.mp4` is already in the ledger, so the second run touches only
`b.mp4`. -/
theorem C3_second_run_noop_witness :
    ((∀ f ∈ svFixtureOut.todo, (splitext f).1 ≠ "a") ∧
     (∀ row ∈ svFixtureOut.appended, row.head? ≠ some "a") ∧
     (∀ e ∈ svFixtureOut.trace, evVideoTag e ≠ some "a") ∧
     svFixtureOut.finalRows = svFixtureOut.stored ++ svFixtureOut.appended ∧
     (svFixtureInp.csvExists = true → svFixtureOut.stored = svFixtureInp.csvRows)) ∧
    ((∀ f ∈ trFixtureOut.todo, f ≠ "a.mp4") ∧
     (∀ row ∈ trFixtureOut.appended, row.head? ≠ some "a.mp4") ∧
     (∀ e ∈ trFixtureOut.trace, evVideoTag e ≠ some "a.mp4") ∧
     trFixtureOut.finalRows = trFixtureOut.initialRows ++ trFixtureOut.appended ∧
     (trFixtureInp.folderExists = true → trFixtureInp.csvExists = true →
       trFixtureOut.initialRows = trFixtureInp.csvRows)) :=
  ⟨C3_second_run_noop.1 detect1 "vids" "vids-split" "scenes.csv"
      svFixtureInp svFixtureOut "a" (by rfl) (by decide),
   C3_second_run_noop.2 (fun _ => none) detect1 "vids" "out"
      trFixtureInp trFixtureOut "a.mp4" (by rfl) (by decide)⟩

/-- C4 fails on the code: a recognition result that CONTAINS empty
text (`res = {"text": ""}`, modelled by `fun _ => some ""`) makes line
118's `res.get("text", "NO TRANSCRIPTION FOUND")` return the empty
string, so the row's transcription cell (column 6) is `""`, not the
sentinel.  The sentinel appears only when the `"text"` key is missing
altogether. -/
theorem C4_cex :
    (trVideoRows (fun _ => some "") detect1 "vids" "out" "a.mp4").map
        (fun r => r.getD 6 "") = [""] ∧
    ("" : String) ≠ noTranscription := by
  refine ⟨by decide, by decide⟩

/-- C4 (amended): the transcription cell of scene `i`'s ledger row is
the sentinel exactly when the recognition result for that scene's
audio file lacks a `"text"` key; when the key is present its value —
even the empty string — is stored verbatim, and row construction never
fails either way. -/
theorem C4_sentinel_missing_key (tr : String → Option String)
    (detect : String → List (String × String)) (iF oF file : String)
    (i : Nat) (hi : i < (trVideoRows tr detect iF oF file).length) :
    (tr (trAudioPath oF file i) = none →
      ((trVideoRows tr detect iF oF file).getD i []).getD 6 "" = noTranscription) ∧
    (∀ t, tr (trAudioPath oF file i) = some t →
      ((trVideoRows tr detect iF oF file).getD i []).getD 6 "" = t) := by
  rw [List.getD_eq_getElem _ _ hi]
  have hlen : i < (detect (pathJoin iF file)).enum.length := by
    simpa [trVideoRows] using hi
  constructor
  · intro h
    simp [trVideoRows, List.getElem_map, List.getElem_enum, h, List.getD]
  · intro t h
    simp [trVideoRows, List.getElem_map, List.getElem_enum, h, List.getD]

/-- Witness for `C4_sentinel_missing_key`: with no `"text"` key the
cell is the sentinel; with `"text": "hello"` it is `"hello"`. -/
theorem C4_sentinel_missing_key_witness :
    ((trVideoRows (fun _ => none) detect1 "vids" "out" "a.mp4").getD 0 []).getD 6 "" =
      noTranscription ∧
    ((trVideoRows (fun _ => some "hello") detect1 "vids" "out" "a.mp4").getD 0 []).getD 6 "" =
      "hello" :=
  ⟨(C4_sentinel_missing_key (fun _ => none) detect1 "vids" "out" "a.mp4" 0 (by decide)).1 rfl,
   (C4_sentinel_missing_key (fun _ => some "hello") detect1 "vids" "out" "a.mp4" 0
      (by decide)).2 "hello" rfl⟩

theorem enum_map_fst_comp {α β : Type} (l : List α) (g : Nat → β) :
    l.enum.map (fun p => g p.1) = (List.range l.length).map g := by
  rw [← List.enum_map_fst (l := l), List.map_map]
  rfl

theorem filterMap_map_all_some {α β γ : Type} (l : List α) (g : α → β)
    (F : β → Option γ) (f : α → γ) (h : ∀ a, F (g a) = some (f a)) :
    (l.map g).filterMap F = l.map f := by
  induction l with
  | nil => rfl
  | cons a l ih => simp [h, ih]

theorem filterMap_map_all_none {α β γ : Type} (l : List α) (g : α → β)
    (F : β → Option γ) (h : ∀ a, F (g a) = none) :
    (l.map g).filterMap F = [] := by
  induction l with
  | nil => rfl
  | cons a l ih => simp [h, ih]

theorem filterMap_evAudioNum_pairs (l : List Nat) (file : String) :
    (l.flatMap (fun i =>
        [Ev.writeAudio file (i + 1), Ev.transcribeScene file (i + 1)])).filterMap
      evAudioNum = l.map (fun i => i + 1) := by
  induction l with
  | nil => rfl
  | cons a l ih => simp [evAudioNum, ih]

/-- C5: scene numbering is 1-based, contiguous and in detector order
in both scripts.  The `scene_number` cell (column 1) of the rows built
for a video runs `1, 2, ..., n` — rendered by `str(idx + 1)` in
`split_video.py` line 75 and zero-padded by `str(i + 1).zfill(3)` in
`transcribe.py` line 79 — and the artifact events of the trace carry
the same numbers in the same order. -/
theorem C5_scene_numbering (name : String) (scenes : List (String × String))
    (tr : String → Option String) (detect : String → List (String × String))
    (iF oF file : String) :
    (svVideoRows name scenes).map (fun r => r.getD 1 "") =
      (List.range scenes.length).map (fun i => Nat.repr (i + 1)) ∧
    (trVideoRows tr detect iF oF file).map (fun r => r.getD 1 "") =
      (List.range (detect (pathJoin iF file)).length).map
        (fun i => zfill (Nat.repr (i + 1)) 3) ∧
    (svVideoTrace name scenes).filterMap evImageNum =
      (List.range scenes.length).map (fun i => i + 1) ∧
    (trVideoTrace tr detect iF oF file).filterMap evAudioNum =
      (List.range (detect (pathJoin iF file)).length).map (fun i => i + 1) := by
  refine ⟨?_, ?_, ?_, ?_⟩
  · rw [svVideoRows, List.map_map]
    exact enum_map_fst_comp scenes (fun i => Nat.repr (i + 1))
  · rw [trVideoRows, List.map_map]
    exact enum_map_fst_comp (detect (pathJoin iF file))
      (fun i => zfill (Nat.repr (i + 1)) 3)
  · rw [svVideoTrace, svSceneWork, List.filterMap_append, List.filterMap_append,
      filterMap_map_all_some (List.range scenes.length)
        (fun i => Ev.writeImage name (i + 1)) evImageNum
        (fun i => i + 1) (fun a => rfl),
      filterMap_map_all_none (List.range scenes.length)
        (fun i => Ev.writeClip name (i + 1)) evImageNum (fun a => rfl),
      filterMap_map_all_none (svVideoRows name scenes) Ev.appendRow evImageNum
        (fun a => rfl)]
    simp
  · rw [trVideoTrace, trSceneWork, List.cons_append, List.filterMap_cons]
    simp only [evAudioNum]
    rw [List.append_assoc, List.append_assoc, List.filterMap_append,
      List.filterMap_append, List.filterMap_append,
      filterMap_map_all_none (List.range (detect (pathJoin iF file)).length)
        (fun i => Ev.writeImage file (i + 1)) evAudioNum (fun a => rfl),
      filterMap_map_all_none (List.range (detect (pathJoin iF file)).length)
        (fun i => Ev.writeClip file (i + 1)) evAudioNum (fun a => rfl),
      filterMap_evAudioNum_pairs,
      filterMap_map_all_none (trVideoRows tr detect iF oF file) Ev.appendRow
        evAudioNum (fun a => rfl)]
    simp

/-- C6 is a code bug: `split_video.py` line 80 calls
`split_video_scenes(input_folder="vids", output_folder="vids-split")`,
omitting the required `csv_file` parameter, so running the script
raises `TypeError` at once and produces no artifacts and no ledger —
here evaluated on the claimed scenario (input folder `vids` holding
`a.mp4` with three detected scenes and `notes.txt`, no ledger yet). -/
theorem C6_script_missing_csv_file :
    split_video_script
        (fun p => if p = "vids/a.mp4" then
          [("0.0", "4.2"), ("4.2", "9.0"), ("9.0", "12.5")] else [])
        ⟨false, [], ["a.mp4", "notes.txt"]⟩ =
      .error (.typeError "csv_file") := by
  rfl

/-- C7: extension matching is case-sensitive in both scanners — a file
whose extension is in the allow-list only after lower-casing is
excluded from the to-do list — while a file whose ledger key is
already recorded is excluded whatever its extension looks like. -/
theorem C7_case_sensitive (listing processed done : List String) (f : String) :
    (endsWithAny (strToLower f) allowedExts = true →
      endsWithAny f allowedExts = false →
      f ∉ svTodo listing processed ∧ f ∉ trTodo listing done) ∧
    ((splitext f).1 ∈ processed → f ∉ svTodo listing processed) ∧
    (f ∈ done → f ∉ trTodo listing done) := by
  refine ⟨fun _ hext => ⟨?_, ?_⟩, fun hp hm => ?_, fun hd hm => ?_⟩
  · intro hm
    rw [(mem_svTodo.mp hm).2.1] at hext
    cases hext
  · intro hm
    rw [(mem_trTodo.mp hm).2.1] at hext
    cases hext
  · exact (mem_svTodo.mp hm).2.2 hp
  · exact (mem_trTodo.mp hm).2.2 hd

/-- Witness for `C7_case_sensitive`: `x.MP4` is skipped by both
scanners although it matches case-insensitively; `y.mp4` with logged
bare name `y` and `z.mp4` with logged full name `z.mp4` are skipped. -/
theorem C7_case_sensitive_witness :
    ("x.MP4" ∉ svTodo ["x.MP4"] [] ∧ "x.MP4" ∉ trTodo ["x.MP4"] []) ∧
    "y.mp4" ∉ svTodo ["y.mp4"] ["y"] ∧
    "z.mp4" ∉ trTodo ["z.mp4"] ["z.mp4"] :=
  ⟨(C7_case_sensitive ["x.MP4"] [] [] "x.MP4").1 (by decide) (by decide),
   (C7_case_sensitive ["y.mp4"] ["y"] [] "y.mp4").2.1 (by decide),
   (C7_case_sensitive ["z.mp4"] [] ["z.mp4"] "z.mp4").2.2 (by decide)⟩

/-- C9: when the ledger CSV of `split_video.py` exists but is entirely
empty, `next(reader)` on line 29 raises `StopIteration`, which
propagates: for every detector and every directory listing the run
ends in that error, so no video is processed and the directory scan is
never reached. -/
theorem C9_empty_ledger_stop_iteration (detect : String → List (String × String))
    (iF oF cF : String) (listing : List String) :
    split_video_scenes detect iF oF cF ⟨true, [], listing⟩ =
      .error .stopIteration := by
  rfl

theorem mapM_row0_eq (rows : List (List String)) (h : ∀ r ∈ rows, r ≠ []) :
    rows.mapM row0 = .ok (rows.map (fun r => r.headD "")) := by
  induction rows with
  | nil => rfl
  | cons r rest ih =>
    cases r with
    | nil => exact absurd rfl (h _ (by simp))
    | cons x xs =>
      rw [List.mapM_cons, ih (fun r hr => h r (by simp [hr]))]
      rfl

/-- C10: `init_folder` creates the ledger (header row included) only
when the output folder itself is missing; an existing output folder
without `scenes.csv` makes `open(file, "r")` raise
`FileNotFoundError`; and when the ledger exists, the returned list is
`row[0]` of EVERY row, so it starts with the header cell `"video"`
followed by the logged video filenames. -/
theorem C10_init_folder (st : TrFolder) :
    (st.folderExists = false →
      init_folder st =
        .ok ({ folderExists := true, csvExists := true, csvRows := [trHeader] }, [])) ∧
    (st.folderExists = true → st.csvExists = false →
      init_folder st = .error .fileNotFound) ∧
    (∀ body : List (List String), st.folderExists = true → st.csvExists = true →
      st.csvRows = trHeader :: body → (∀ r ∈ body, r ≠ []) →
      init_folder st = .ok (st, "video" :: body.map (fun r => r.headD ""))) := by
  refine ⟨fun hfold => ?_, fun hfold hcsv => ?_, fun body hfold hcsv hrows hne => ?_⟩
  · rw [init_folder, hfold]
    rfl
  · rw [init_folder, hfold, hcsv]
    rfl
  · rw [init_folder, hfold, hcsv, hrows]
    simp only [if_pos rfl]
    rw [mapM_row0_eq (trHeader :: body)
        (by
          intro r hr
          rcases List.mem_cons.mp hr with rfl | hr
          · simp [trHeader]
          · exact hne r hr)]
    rfl

/-- Witness for `C10_init_folder` on the three concrete folder states. -/
theorem C10_init_folder_witness :
    init_folder ⟨false, false, []⟩ =
      .ok ({ folderExists := true, csvExists := true, csvRows := [trHeader] }, []) ∧
    init_folder ⟨true, false, []⟩ = .error .fileNotFound ∧
    init_folder ⟨true, true, [trHeader, ["a.mp4", "001"], ["b.mp4", "001"]]⟩ =
      .ok (⟨true, true, [trHeader, ["a.mp4", "001"], ["b.mp4", "001"]]⟩,
        ["video", "a.mp4", "b.mp4"]) :=
  ⟨(C10_init_folder ⟨false, false, []⟩).1 rfl,
   (C10_init_folder ⟨true, false, []⟩).2.1 rfl rfl,
   (C10_init_folder ⟨true, true, [trHeader, ["a.mp4", "001"], ["b.mp4", "001"]]⟩).2.2
     [["a.mp4", "001"], ["b.mp4", "001"]] rfl rfl rfl (by decide)⟩

theorem mem_sceneGenSetup {outF name : String} {fs : List FsPath} {p : FsPath} :
    p ∈ sceneGenSetup outF name fs ↔
      (p = [outF] ∨ p = [outF, "videos"] ∨ p = [outF, "videos", name] ∨
        p = [outF, "videos", name, "scenes"] ∨ p = [outF, "videos", name, "images"] ∨
        p = [outF, "videos", name, "audio"] ∨
        p ∈ (if fs.contains [outF, "videos", name] then
          rmtree [outF, "videos", name] fs else fs)) := by
  simp only [sceneGenSetup, List.foldl_cons, List.foldl_nil, makedirs, pathAncestors,
    List.cons_append, List.nil_append, List.map_cons, List.map_nil,
    List.mem_append, List.mem_cons, List.not_mem_nil, or_false]
  tauto

/-- C8: when `scene_generator` starts on a video, a pre-existing
per-video output directory is wiped: afterwards the only paths at or
below it are the freshly created directory and its `scenes`, `images`
and `audio` subdirectories; every pre-existing path outside the
per-video directory survives; and in the event trace the directory
refresh is the very first event, before any artifact of the video is
written.  (`hclosed` states the filesystem invariant that a path's
ancestors exist.) -/
theorem C8_dir_refresh (outF name : String) (fs : List FsPath)
    (hclosed : ∀ p ∈ fs, ∀ k, k < p.length → p.take (k + 1) ∈ fs) :
    (∀ p : FsPath, [outF, "videos", name] <+: p →
      (p ∈ sceneGenSetup outF name fs ↔
        (p = [outF, "videos", name] ∨ p = [outF, "videos", name, "scenes"] ∨
          p = [outF, "videos", name, "images"] ∨ p = [outF, "videos", name, "audio"]))) ∧
    (∀ p ∈ fs, ¬ [outF, "videos", name] <+: p → p ∈ sceneGenSetup outF name fs) ∧
    (∀ (tr : String → Option String) (detect : String → List (String × String))
      (iF file : String),
      (trVideoTrace tr detect iF outF file).head? = some (Ev.setupDirs file)) ∧
    (∀ (tr : String → Option String) (detect : String → List (String × String))
      (iF file : String) (j : Nat)
      (hj : j < (trVideoTrace tr detect iF outF file).length),
      isSceneWorkEv ((trVideoTrace tr detect iF outF file)[j]) = true → 0 < j) := by
  refine ⟨?_, ?_, ?_, ?_⟩
  · intro p hpre
    have hlen3 : 3 ≤ p.length := by
      have := hpre.length_le
      simpa using this
    constructor
    · intro hp
      rcases mem_sceneGenSetup.mp hp with rfl | rfl | rfl | rfl | rfl | rfl | hfs1
      · have := hpre.length_le
        simp at this
      · have := hpre.length_le
        simp at this
      · exact Or.inl rfl
      · exact Or.inr (Or.inl rfl)
      · exact Or.inr (Or.inr (Or.inl rfl))
      · exact Or.inr (Or.inr (Or.inr rfl))
      · by_cases hb : fs.contains [outF, "videos", name] = true
        · rw [if_pos hb, rmtree] at hfs1
          have hcond := (List.mem_filter.mp hfs1).2
          rw [Bool.not_eq_true'] at hcond
          rw [List.isPrefixOf_iff_prefix.mpr hpre] at hcond
          cases hcond
        · rw [if_neg hb] at hfs1
          have htake : p.take 3 = [outF, "videos", name] := by
            have := List.prefix_iff_eq_take.mp hpre
            simpa using this.symm
          have hin : [outF, "videos", name] ∈ fs := by
            have := hclosed p hfs1 2 (by omega)
            rwa [htake] at this
          exact absurd (contains_iff.mpr hin) hb
    · rintro (rfl | rfl | rfl | rfl)
      · exact mem_sceneGenSetup.mpr (Or.inr (Or.inr (Or.inl rfl)))
      · exact mem_sceneGenSetup.mpr (Or.inr (Or.inr (Or.inr (Or.inl rfl))))
      · exact mem_sceneGenSetup.mpr (Or.inr (Or.inr (Or.inr (Or.inr (Or.inl rfl)))))
      · exact mem_sceneGenSetup.mpr (Or.inr (Or.inr (Or.inr (Or.inr (Or.inr (Or.inl rfl))))))
  · intro p hp hnp
    refine mem_sceneGenSetup.mpr (Or.inr (Or.inr (Or.inr (Or.inr (Or.inr (Or.inr ?_))))))
    by_cases hb : fs.contains [outF, "videos", name] = true
    · rw [if_pos hb, rmtree]
      refine List.mem_filter.mpr ⟨hp, ?_⟩
      rw [Bool.not_eq_true', Bool.eq_false_iff]
      intro hx
      exact hnp (List.isPrefixOf_iff_prefix.mp hx)
    · rw [if_neg hb]
      exact hp
  · intro tr detect iF file
    rfl
  · intro tr detect iF file j hj hsw
    cases j with
    | zero =>
      have h0 : (trVideoTrace tr detect iF outF file)[0] = Ev.setupDirs file := rfl
      rw [h0] at hsw
      cases hsw
    | succ k => exact Nat.succ_pos k

/-- Witness for `C8_dir_refresh` on a concrete filesystem holding a
stale scene file below `out/videos/a`. -/
theorem C8_dir_refresh_witness :
    ((["out", "videos", "a", "old"] : FsPath) ∈
        sceneGenSetup "out" "a"
          [["out"], ["out", "videos"], ["out", "videos", "a"],
            ["out", "videos", "a", "old"]] ↔
      ((["out", "videos", "a", "old"] : FsPath) = ["out", "videos", "a"] ∨
        (["out", "videos", "a", "old"] : FsPath) = ["out", "videos", "a", "scenes"] ∨
        (["out", "videos", "a", "old"] : FsPath) = ["out", "videos", "a", "images"] ∨
        (["out", "videos", "a", "old"] : FsPath) = ["out", "videos", "a", "audio"])) ∧
    (["out"] : FsPath) ∈
      sceneGenSetup "out" "a"
        [["out"], ["out", "videos"], ["out", "videos", "a"],
          ["out", "videos", "a", "old"]] ∧
    (trVideoTrace (fun _ => none) detect1 "vids" "out" "b.mp4").head? =
      some (Ev.setupDirs "b.mp4") ∧
    (0 : Nat) < 1 :=
  ⟨(C8_dir_refresh "out" "a"
      [["out"], ["out", "videos"], ["out", "videos", "a"], ["out", "videos", "a", "old"]]
      (by decide)).1 ["out", "videos", "a", "old"] (by decide),
   (C8_dir_refresh "out" "a"
      [["out"], ["out", "videos"], ["out", "videos", "a"], ["out", "videos", "a", "old"]]
      (by decide)).2.1 ["out"] (by decide) (by decide),
   (C8_dir_refresh "out" "a"
      [["out"], ["out", "videos"], ["out", "videos", "a"], ["out", "videos", "a", "old"]]
      (by decide)).2.2.1 (fun _ => none) detect1 "vids" "b.mp4",
   (C8_dir_refresh "out" "a"
      [["out"], ["out", "videos"], ["out", "videos", "a"], ["out", "videos", "a", "old"]]
      (by decide)).2.2.2 (fun _ => none) detect1 "vids" "b.mp4" 1 (by decide) (by decide)⟩

end TranscribeScenes
